import Mathlib

/-!
Verification of the `Atom` data model of `src/Atoms/instantiation_atoms.py`.

Modelling conventions for the shallow embedding:
* Python floats appearing in this source are exact decimal literals that are
  only compared for equality, so they are modelled as rationals (`ℚ`).
* `np.ndarray` coordinates are modelled as `List ℚ` (the source never
  validates their length or contents).
* Python `None` is modelled by `Option.none`; optional parameters by `Option`.
* `str.upper` is modelled character-wise by `Char.toUpper` (the element
  symbols occurring in this source are ASCII).
* The constructor `Atom.__init__` contains an `assert`; a violated assertion
  aborts construction, so the embedded constructor returns `Option Atom`,
  with `none` for the aborted construction.
* The class bodies of `Atom` and `Residue` are mutually referential
  (`Atom.parent : Residue | None`, `Residue.atoms` is a list intended to hold
  atoms), hence the mutual inductive below.  Field accessors are given as
  plain definitions since Lean mutual inductives do not generate projections.
* `full_id` is documented in the source as a tuple but is only ever set to
  `None`; its payload type is modelled as `Unit` since no value of it is ever
  constructed.  Likewise the `xtra` dictionary only ever takes the empty
  value, and is modelled as an association list with string values.
-/

mutual

inductive Atom where
  | mk
      (level : String)
      (parent : Option Residue)
      (name : String)
      (fullname : String)
      (coord : List ℚ)
      (bfactor : Option ℚ)
      (occupancy : Option ℚ)
      (altloc : String)
      (full_id : Option Unit)
      (id : String)
      (disordered_flag : Nat)
      (anisou_array : Option (List ℚ))
      (siguij_array : Option (List ℚ))
      (sigatm_array : Option (List ℚ))
      (serial_number : Int)
      (xtra : List (String × String))
      (element : Option String)
      (mass : Option ℚ)
      (pqr_charge : Option ℚ)
      (radius : Option ℚ)
      (sorting_keys : List (String × Nat))
      : Atom

inductive Residue where
  | mk
      (name : String)
      (id : Int)
      (atoms : List Atom)
      : Residue

end

def Atom.level : Atom → String
  | .mk l _ _ _ _ _ _ _ _ _ _ _ _ _ _ _ _ _ _ _ _ => l

def Atom.parent : Atom → Option Residue
  | .mk _ p _ _ _ _ _ _ _ _ _ _ _ _ _ _ _ _ _ _ _ => p

def Atom.name : Atom → String
  | .mk _ _ n _ _ _ _ _ _ _ _ _ _ _ _ _ _ _ _ _ _ => n

def Atom.fullname : Atom → String
  | .mk _ _ _ f _ _ _ _ _ _ _ _ _ _ _ _ _ _ _ _ _ => f

def Atom.coord : Atom → List ℚ
  | .mk _ _ _ _ c _ _ _ _ _ _ _ _ _ _ _ _ _ _ _ _ => c

def Atom.bfactor : Atom → Option ℚ
  | .mk _ _ _ _ _ b _ _ _ _ _ _ _ _ _ _ _ _ _ _ _ => b

def Atom.occupancy : Atom → Option ℚ
  | .mk _ _ _ _ _ _ o _ _ _ _ _ _ _ _ _ _ _ _ _ _ => o

def Atom.altloc : Atom → String
  | .mk _ _ _ _ _ _ _ a _ _ _ _ _ _ _ _ _ _ _ _ _ => a

def Atom.full_id : Atom → Option Unit
  | .mk _ _ _ _ _ _ _ _ fi _ _ _ _ _ _ _ _ _ _ _ _ => fi

def Atom.id : Atom → String
  | .mk _ _ _ _ _ _ _ _ _ i _ _ _ _ _ _ _ _ _ _ _ => i

def Atom.disordered_flag : Atom → Nat
  | .mk _ _ _ _ _ _ _ _ _ _ d _ _ _ _ _ _ _ _ _ _ => d

def Atom.anisou_array : Atom → Option (List ℚ)
  | .mk _ _ _ _ _ _ _ _ _ _ _ an _ _ _ _ _ _ _ _ _ => an

def Atom.siguij_array : Atom → Option (List ℚ)
  | .mk _ _ _ _ _ _ _ _ _ _ _ _ sg _ _ _ _ _ _ _ _ => sg

def Atom.sigatm_array : Atom → Option (List ℚ)
  | .mk _ _ _ _ _ _ _ _ _ _ _ _ _ sa _ _ _ _ _ _ _ => sa

def Atom.serial_number : Atom → Int
  | .mk _ _ _ _ _ _ _ _ _ _ _ _ _ _ sn _ _ _ _ _ _ => sn

def Atom.xtra : Atom → List (String × String)
  | .mk _ _ _ _ _ _ _ _ _ _ _ _ _ _ _ x _ _ _ _ _ => x

def Atom.element : Atom → Option String
  | .mk _ _ _ _ _ _ _ _ _ _ _ _ _ _ _ _ e _ _ _ _ => e

def Atom.mass : Atom → Option ℚ
  | .mk _ _ _ _ _ _ _ _ _ _ _ _ _ _ _ _ _ m _ _ _ => m

def Atom.pqr_charge : Atom → Option ℚ
  | .mk _ _ _ _ _ _ _ _ _ _ _ _ _ _ _ _ _ _ pc _ _ => pc

def Atom.radius : Atom → Option ℚ
  | .mk _ _ _ _ _ _ _ _ _ _ _ _ _ _ _ _ _ _ _ r _ => r

def Atom.sorting_keys : Atom → List (String × Nat)
  | .mk _ _ _ _ _ _ _ _ _ _ _ _ _ _ _ _ _ _ _ _ k => k

/-- Character-wise uppercasing, modelling Python `str.upper` on the ASCII
strings this source manipulates.  It is stated over the character list so
that it reduces on concrete strings; `pyUpper_eq_map` below identifies it
with `String.map Char.toUpper`. -/
def pyUpper (s : String) : String :=
  String.mk (s.data.map Char.toUpper)

/-- Truth value of the Python expression
`not element or element == element.upper()` asserted on line 89 of the
source: `not element` is `True` exactly when `element` is `None` or the
empty string, and `element == element.upper()` is only evaluated (by
short-circuit) on a non-empty string. -/
def elementAssertHolds : Option String → Bool
  | none => true
  | some s => s.isEmpty || s == pyUpper s

/-- Embedding of `Atom._assign_element` (source lines 99-102): a placeholder
that returns its input unchanged. -/
def Atom.assign_element (element : Option String) : Option String :=
  element

/-- Embedding of `Atom._assign_atom_mass` (source lines 104-114).  It reads
`self.element`, which at the point of the call in `__init__` holds
`self._assign_element(element)`; here that value is taken as the argument.
Comparison `self.element == "C"` is `False` when `self.element` is `None`,
matching the `Option String` equality used here. -/
def Atom.assign_atom_mass (element : Option String) : Option ℚ :=
  if element = some "C" then some (12.011 : ℚ)
  else if element = some "O" then some (15.999 : ℚ)
  else if element = some "N" then some (14.007 : ℚ)
  else none

/-- Embedding of `Atom.__init__` (source lines 27-96).  Fields are stored in
the order the source assigns them; the assertion on the element argument
aborts construction (`none`) when violated. -/
def Atom.init
    (name : String)
    (coord : List ℚ)
    (bfactor : Option ℚ)
    (occupancy : Option ℚ)
    (altloc : String)
    (fullname : String)
    (serial_number : Int)
    (element : Option String)
    (pqr_charge : Option ℚ)
    (radius : Option ℚ)
    : Option Atom :=
  if elementAssertHolds element then
    some (Atom.mk
      "A"                                  -- self.level = "A"
      none                                 -- self.parent = None
      name                                 -- self.name = name
      fullname                             -- self.fullname = fullname
      coord                                -- self.coord = coord
      bfactor                              -- self.bfactor = bfactor
      occupancy                            -- self.occupancy = occupancy
      altloc                               -- self.altloc = altloc
      none                                 -- self.full_id = None
      name                                 -- self.id = name
      0                                    -- self.disordered_flag = 0
      none                                 -- self.anisou_array = None
      none                                 -- self.siguij_array = None
      none                                 -- self.sigatm_array = None
      serial_number                        -- self.serial_number = serial_number
      []                                   -- self.xtra = empty dict
      (Atom.assign_element element)        -- self.element = self._assign_element(element)
      (Atom.assign_atom_mass (Atom.assign_element element))
                                           -- self.mass = self._assign_atom_mass()
      pqr_charge                           -- self.pqr_charge = pqr_charge
      radius                               -- self.radius = radius
      [("N", 0), ("CA", 1), ("C", 2), ("O", 3)])
                                           -- self._sorting_keys
  else
    none

/-! Helper lemmas shared by the claim theorems. -/

theorem pyUpper_eq_map (s : String) : pyUpper s = s.map Char.toUpper :=
  (String.map_eq Char.toUpper s).symm

theorem pyUpper_empty : pyUpper "" = "" := by decide

/-- A violated element assertion is exactly a supplied element string that
differs from its character-wise upper-casing (the empty string equals its
own upper-casing, so the Python short-circuit on falsy strings changes
nothing here). -/
theorem elementAssertHolds_eq_false_iff (e : Option String) :
    elementAssertHolds e = false ↔ ∃ s, e = some s ∧ s ≠ pyUpper s := by
  cases e with
  | none => simp [elementAssertHolds]
  | some s =>
    constructor
    · intro h
      refine ⟨s, rfl, fun hup => ?_⟩
      simp [elementAssertHolds, ← hup] at h
    · rintro ⟨t, ht, hne⟩
      obtain rfl := Option.some.inj ht
      cases hh : elementAssertHolds (some s) with
      | false => rfl
      | true =>
        exfalso
        simp only [elementAssertHolds, Bool.or_eq_true, beq_iff_eq] at hh
        rcases hh with hh | hh
        · rw [String.isEmpty_iff] at hh
          subst hh
          exact hne pyUpper_empty.symm
        · exact hne hh

/-- The shape of every successfully constructed atom: all fields are
determined by the constructor arguments. -/
theorem Atom.init_eq_some
    {name : String} {coord : List ℚ} {bfactor occupancy : Option ℚ}
    {altloc fullname : String} {serial_number : Int}
    {element : Option String} {pqr_charge radius : Option ℚ} {a : Atom}
    (h : Atom.init name coord bfactor occupancy altloc fullname serial_number
        element pqr_charge radius = some a) :
    a = Atom.mk "A" none name fullname coord bfactor occupancy altloc none name 0
        none none none serial_number [] element (Atom.assign_atom_mass element)
        pqr_charge radius [("N", 0), ("CA", 1), ("C", 2), ("O", 3)] := by
  unfold Atom.init at h
  split at h
  · exact (Option.some.inj h).symm
  · cases h

/-- Construction aborts exactly when the element assertion fails. -/
theorem Atom.init_eq_none_iff
    (name : String) (coord : List ℚ) (bfactor occupancy : Option ℚ)
    (altloc fullname : String) (serial_number : Int)
    (element : Option String) (pqr_charge radius : Option ℚ) :
    Atom.init name coord bfactor occupancy altloc fullname serial_number
        element pqr_charge radius = none ↔ elementAssertHolds element = false := by
  unfold Atom.init
  split
  next h => simp [h]
  next h => simp_all

/-- The concrete carbon-alpha atom built by the driver code (source lines
130-141), exactly as the embedded constructor produces it. -/
def caAtom : Atom :=
  Atom.mk "A" none "CA" " CA " [15.234, 12.567, 8.901] (some 35.7) (some 1.0)
    " " none "CA" 0 none none none 25 [] (some "C") (some 12.011) none none
    [("N", 0), ("CA", 1), ("C", 2), ("O", 3)]

/-- A second concrete atom sharing only the element "C" with `caAtom`,
with every other constructor argument different. -/
def cbAtom : Atom :=
  Atom.mk "A" none "CB" " CB " [1, 2, 3] none none
    "B" none "CB" 0 none none none 99 [] (some "C") (some 12.011) (some 0.5)
    (some 1.5) [("N", 0), ("CA", 1), ("C", 2), ("O", 3)]

/-- C1: for every successfully constructed Atom, the derived mass equals
12.011 when the element argument is "C", 15.999 when it is "O", 14.007 when
it is "N", and is absent for any other element, including "H" and an unset
element. -/
theorem init_mass_by_element
    (name : String) (coord : List ℚ) (bfactor occupancy : Option ℚ)
    (altloc fullname : String) (serial_number : Int)
    (element : Option String) (pqr_charge radius : Option ℚ) (a : Atom)
    (h : Atom.init name coord bfactor occupancy altloc fullname serial_number
        element pqr_charge radius = some a) :
    a.mass = if element = some "C" then some (12.011 : ℚ)
      else if element = some "O" then some (15.999 : ℚ)
      else if element = some "N" then some (14.007 : ℚ)
      else none := by
  obtain rfl := Atom.init_eq_some h
  rfl

theorem init_mass_by_element_witness :
    caAtom.mass = if (some "C" : Option String) = some "C" then some (12.011 : ℚ)
      else if (some "C" : Option String) = some "O" then some (15.999 : ℚ)
      else if (some "C" : Option String) = some "N" then some (14.007 : ℚ)
      else none :=
  init_mass_by_element "CA" [15.234, 12.567, 8.901] (some 35.7) (some 1.0) " "
    " CA " 25 (some "C") none none caAtom rfl

/-- C2: construction fails exactly when a supplied element string is not its
own character-wise upper-cased form; this is the only error case of
construction. -/
theorem init_fails_iff_element_not_uppercase
    (name : String) (coord : List ℚ) (bfactor occupancy : Option ℚ)
    (altloc fullname : String) (serial_number : Int)
    (element : Option String) (pqr_charge radius : Option ℚ) :
    Atom.init name coord bfactor occupancy altloc fullname serial_number
        element pqr_charge radius = none ↔
      ∃ s, element = some s ∧ s ≠ pyUpper s := by
  rw [Atom.init_eq_none_iff, elementAssertHolds_eq_false_iff]

/-- C3: the fields name, coord, bfactor, occupancy, altloc, fullname,
serial_number, pqr_charge and radius of every successfully constructed Atom
are stored unchanged: reading each back yields exactly the constructor
argument. -/
theorem init_stores_fields_unchanged
    (name : String) (coord : List ℚ) (bfactor occupancy : Option ℚ)
    (altloc fullname : String) (serial_number : Int)
    (element : Option String) (pqr_charge radius : Option ℚ) (a : Atom)
    (h : Atom.init name coord bfactor occupancy altloc fullname serial_number
        element pqr_charge radius = some a) :
    a.name = name ∧ a.coord = coord ∧ a.bfactor = bfactor ∧
    a.occupancy = occupancy ∧ a.altloc = altloc ∧ a.fullname = fullname ∧
    a.serial_number = serial_number ∧ a.pqr_charge = pqr_charge ∧
    a.radius = radius := by
  obtain rfl := Atom.init_eq_some h
  exact ⟨rfl, rfl, rfl, rfl, rfl, rfl, rfl, rfl, rfl⟩

theorem init_stores_fields_unchanged_witness :
    caAtom.name = "CA" ∧ caAtom.coord = [15.234, 12.567, 8.901] ∧
    caAtom.bfactor = some 35.7 ∧ caAtom.occupancy = some 1.0 ∧
    caAtom.altloc = " " ∧ caAtom.fullname = " CA " ∧
    caAtom.serial_number = 25 ∧ caAtom.pqr_charge = none ∧
    caAtom.radius = none :=
  init_stores_fields_unchanged "CA" [15.234, 12.567, 8.901] (some 35.7)
    (some 1.0) " " " CA " 25 (some "C") none none caAtom rfl

/-- C4: whenever the element is absent or equal to its own upper-cased form,
construction succeeds, with no validation of any other field: occupancy
outside the unit interval, a negative radius, and simultaneously supplied
PDB-style (bfactor, occupancy) and PQR-style (pqr_charge, radius) fields
are all accepted. -/
theorem init_succeeds_element_case_only
    (name : String) (coord : List ℚ) (bfactor occupancy : Option ℚ)
    (altloc fullname : String) (serial_number : Int)
    (element : Option String) (pqr_charge radius : Option ℚ)
    (h : element = none ∨ ∃ s, element = some s ∧ s = pyUpper s) :
    (Atom.init name coord bfactor occupancy altloc fullname serial_number
        element pqr_charge radius).isSome = true := by
  unfold Atom.init
  rcases h with rfl | ⟨s, rfl, hs⟩
  · rfl
  · simp [elementAssertHolds, ← hs]

theorem init_succeeds_element_case_only_witness :
    ((some "C" : Option String) = none ∨
      ∃ s, (some "C" : Option String) = some s ∧ s = pyUpper s) ∧
    (Atom.init "CA" [15.234, 12.567, 8.901] (some 35.7) (some 2.5) " " " CA "
      25 (some "C") (some 0.25) (some (-1.2))).isSome = true :=
  ⟨Or.inr ⟨"C", rfl, by decide⟩,
   init_succeeds_element_case_only "CA" [15.234, 12.567, 8.901] (some 35.7)
     (some 2.5) " " " CA " 25 (some "C") (some 0.25) (some (-1.2))
     (Or.inr ⟨"C", rfl, by decide⟩)⟩

/-- C5: constructing an Atom with an absent element succeeds, and the
resulting Atom has no mass value. -/
theorem init_none_element_succeeds_no_mass
    (name : String) (coord : List ℚ) (bfactor occupancy : Option ℚ)
    (altloc fullname : String) (serial_number : Int)
    (pqr_charge radius : Option ℚ) :
    (Atom.init name coord bfactor occupancy altloc fullname serial_number
        none pqr_charge radius).isSome = true ∧
    (Atom.init name coord bfactor occupancy altloc fullname serial_number
        none pqr_charge radius).map Atom.mass = some none :=
  ⟨rfl, rfl⟩

/-- C6: element assignment is the identity: the helper returns its argument
unchanged, and the element stored on every successfully constructed Atom is
exactly the constructor argument. -/
theorem init_element_identity
    (name : String) (coord : List ℚ) (bfactor occupancy : Option ℚ)
    (altloc fullname : String) (serial_number : Int)
    (element : Option String) (pqr_charge radius : Option ℚ) (a : Atom)
    (h : Atom.init name coord bfactor occupancy altloc fullname serial_number
        element pqr_charge radius = some a) :
    Atom.assign_element element = element ∧ a.element = element := by
  obtain rfl := Atom.init_eq_some h
  exact ⟨rfl, rfl⟩

theorem init_element_identity_witness :
    Atom.assign_element (some "C") = some "C" ∧ caAtom.element = some "C" :=
  init_element_identity "CA" [15.234, 12.567, 8.901] (some 35.7) (some 1.0)
    " " " CA " 25 (some "C") none none caAtom rfl

/-- C7: the parent reference of every successfully constructed Atom is unset
immediately after construction. -/
theorem init_parent_unset
    (name : String) (coord : List ℚ) (bfactor occupancy : Option ℚ)
    (altloc fullname : String) (serial_number : Int)
    (element : Option String) (pqr_charge radius : Option ℚ) (a : Atom)
    (h : Atom.init name coord bfactor occupancy altloc fullname serial_number
        element pqr_charge radius = some a) :
    a.parent = none := by
  obtain rfl := Atom.init_eq_some h
  rfl

theorem init_parent_unset_witness : caAtom.parent = none :=
  init_parent_unset "CA" [15.234, 12.567, 8.901] (some 35.7) (some 1.0) " "
    " CA " 25 (some "C") none none caAtom rfl

/-- C8: constructing an Atom with the empty-string element succeeds, stores
the empty string as the element, and yields no mass value. -/
theorem init_empty_element_succeeds
    (name : String) (coord : List ℚ) (bfactor occupancy : Option ℚ)
    (altloc fullname : String) (serial_number : Int)
    (pqr_charge radius : Option ℚ) :
    (Atom.init name coord bfactor occupancy altloc fullname serial_number
        (some "") pqr_charge radius).map (fun a => (a.element, a.mass)) =
      some (some "", none) :=
  rfl

/-- C9: the fixed initial state of every successfully constructed Atom: id
equals the name argument, level is "A", disordered_flag is 0, full_id is
unset, the xtra side-table is empty, and the anisou, siguij and sigatm
arrays are all unset. -/
theorem init_fixed_initial_state
    (name : String) (coord : List ℚ) (bfactor occupancy : Option ℚ)
    (altloc fullname : String) (serial_number : Int)
    (element : Option String) (pqr_charge radius : Option ℚ) (a : Atom)
    (h : Atom.init name coord bfactor occupancy altloc fullname serial_number
        element pqr_charge radius = some a) :
    a.id = name ∧ a.level = "A" ∧ a.disordered_flag = 0 ∧ a.full_id = none ∧
    a.xtra = [] ∧ a.anisou_array = none ∧ a.siguij_array = none ∧
    a.sigatm_array = none := by
  obtain rfl := Atom.init_eq_some h
  exact ⟨rfl, rfl, rfl, rfl, rfl, rfl, rfl, rfl⟩

theorem init_fixed_initial_state_witness :
    caAtom.id = "CA" ∧ caAtom.level = "A" ∧ caAtom.disordered_flag = 0 ∧
    caAtom.full_id = none ∧ caAtom.xtra = [] ∧ caAtom.anisou_array = none ∧
    caAtom.siguij_array = none ∧ caAtom.sigatm_array = none :=
  init_fixed_initial_state "CA" [15.234, 12.567, 8.901] (some 35.7) (some 1.0)
    " " " CA " 25 (some "C") none none caAtom rfl

/-- C10: the derived mass depends only on the element argument: two
successful constructions with equal element arguments yield equal masses,
regardless of every other constructor argument. -/
theorem init_mass_depends_only_on_element
    (name₁ : String) (coord₁ : List ℚ) (bfactor₁ occupancy₁ : Option ℚ)
    (altloc₁ fullname₁ : String) (serial_number₁ : Int)
    (element₁ : Option String) (pqr_charge₁ radius₁ : Option ℚ)
    (name₂ : String) (coord₂ : List ℚ) (bfactor₂ occupancy₂ : Option ℚ)
    (altloc₂ fullname₂ : String) (serial_number₂ : Int)
    (element₂ : Option String) (pqr_charge₂ radius₂ : Option ℚ)
    (a₁ a₂ : Atom)
    (helem : element₁ = element₂)
    (h₁ : Atom.init name₁ coord₁ bfactor₁ occupancy₁ altloc₁ fullname₁
        serial_number₁ element₁ pqr_charge₁ radius₁ = some a₁)
    (h₂ : Atom.init name₂ coord₂ bfactor₂ occupancy₂ altloc₂ fullname₂
        serial_number₂ element₂ pqr_charge₂ radius₂ = some a₂) :
    a₁.mass = a₂.mass := by
  obtain rfl := Atom.init_eq_some h₁
  obtain rfl := Atom.init_eq_some h₂
  subst helem
  rfl

theorem init_mass_depends_only_on_element_witness :
    (some "C" : Option String) = some "C" ∧ caAtom.mass = cbAtom.mass :=
  ⟨rfl,
   init_mass_depends_only_on_element "CA" [15.234, 12.567, 8.901] (some 35.7)
     (some 1.0) " " " CA " 25 (some "C") none none
     "CB" [1, 2, 3] none none "B" " CB " 99 (some "C") (some 0.5) (some 1.5)
     caAtom cbAtom rfl rfl rfl⟩
